import Mathlib

/-
  Verification of the request-construction and response-interpretation core of
  the review-gpt repository (Go).

  Sources embedded:
  - pkg/globals (model registry, range constants, format errors)
  - pkg/request/request.go (CheckFormat, configureParams, createRequestBody,
    RequestImprovements)

  Modelling notes:
  - Go float64 sampling parameters are modelled as rationals (Rat).  The
    validator only compares them against the small integer range constants with
    < and >, so the order behaviour coincides with float64 on every finite
    double; NaN (which no CLI flag parse produces here) is outside the model.
  - Go int is modelled as Int (no arithmetic is performed on them, only order
    comparisons, so overflow is not reachable).
  - JSON marshalling of the request structs is modelled by a small Json tree:
    encoding/json on these tagged structs emits exactly the tagged fields in
    struct declaration order, which is what the marshal functions below write
    down.  json.Marshal cannot fail on these value types (strings, finite
    numbers), so marshalling is total here.
  - The HTTP transport is a stub parameter: a call either fails at transport
    level or yields a response body, which is abstracted as its decode outcome
    (malformed, or a decoded APIResponse).
-/

namespace ReviewGpt

/-- Model descriptor from pkg/globals: whether the model uses the chat API and
its upstream name. -/
structure Model where
  Chat : Bool
  Name : String
deriving DecidableEq, Repr

/-- The model enums from pkg/globals. -/
def Turbo : Model := { Name := "gpt-3.5-turbo", Chat := true }

def Davinci : Model := { Name := "text-davinci-003", Chat := false }

def Curie : Model := { Name := "text-curie-001", Chat := false }

def Babbage : Model := { Name := "text-babbage-001", Chat := false }

def Ada : Model := { Name := "text-ada-001", Chat := false }

def GPT4 : Model := { Name := "gpt-4", Chat := true }

/-- The alias registry `Models` from pkg/globals (a Go map with string keys). -/
def Models : List (String × Model) :=
  [("turbo", Turbo), ("davinci", Davinci), ("curie", Curie),
   ("babbage", Babbage), ("ada", Ada), ("gpt4", GPT4)]

/-- Go map lookup `Models[rawModel]` together with its presence flag:
some descriptor when the alias is registered, none otherwise. -/
def lookupModel (modelAlias : String) : Option Model :=
  (Models.find? (fun p => p.1 == modelAlias)).map (fun p => p.2)

/-- The zero value a Go map read yields for a missing key. -/
def zeroModel : Model := { Chat := false, Name := "" }

/-- Range constants from pkg/globals. -/
def TempRangeMin : ℚ := 0

def TempRangeMax : ℚ := 1

def TopPMin : ℚ := 0

def TopPMax : ℚ := 1

def PresenceMin : ℚ := -2

def PresenceMax : ℚ := 2

def FrequenceMin : ℚ := -2

def FrequenceMax : ℚ := 2

def BestOfMin : Int := 1

def BestOfMax : Int := 20

/-- The validation error values from pkg/globals. -/
inductive FormatError where
  | ErrWrongModel
  | ErrWrongTempRange
  | ErrWrongToppRange
  | ErrWrongPresenceRange
  | ErrWrongFrequenceRange
  | ErrWrongBestOfRange
deriving DecidableEq, Repr

/-- The legacy-completion request struct `Body` from request.go, with its json
tags kept next to the marshal function below. -/
structure Body where
  Model : String
  Prompt : String
  Temperature : ℚ
  Max_Tokens : Int
  Top_P : ℚ
  Frequence_Pen : ℚ
  Presence_Pen : ℚ
  Best_Of : Int
deriving DecidableEq, Repr

/-- A chat message from request.go. -/
structure Message where
  Role : String
  Content : String
deriving DecidableEq, Repr

/-- The chat request struct `ChatBody` from request.go: no Prompt and no
Best_Of field. -/
structure ChatBody where
  Model : String
  Messages : List Message
  Temperature : ℚ
  Max_Tokens : Int
  Top_P : ℚ
  Frequence_Pen : ℚ
  Presence_Pen : ℚ
deriving DecidableEq, Repr

/-- CheckFormat from request.go: short-circuit range validation returning the
first failing check's error (none = nil error). -/
def CheckFormat (body : Body) (model : Bool) : Option FormatError :=
  if !model then some .ErrWrongModel
  else if body.Temperature < TempRangeMin ∨ body.Temperature > TempRangeMax then
    some .ErrWrongTempRange
  else if body.Top_P < TopPMin ∨ body.Top_P > TopPMax then
    some .ErrWrongToppRange
  else if body.Presence_Pen < PresenceMin ∨ body.Presence_Pen > PresenceMax then
    some .ErrWrongPresenceRange
  else if body.Frequence_Pen < FrequenceMin ∨ body.Frequence_Pen > FrequenceMax then
    some .ErrWrongFrequenceRange
  else if body.Best_Of < BestOfMin ∨ body.Best_Of > BestOfMax then
    some .ErrWrongBestOfRange
  else none

/-- The fixed legacy instruction constant PROMPT_PREFIX from request.go. -/
def PROMPT_PREFIX : String := "From a code reviewer's perspective, Review the the git diff below and tell me what I can improve on in the code (the '+' in the git diff is an added line, the '-' is a removed line). Only review the changes that code that has been added i.e. the code denoted by the '+' icon all other codes i.e. codes denoted by '-' and with no indicator, are just for context dont comment on them. Do not suggest changes already made in the git diff. Do not explain the git diff. Only say what could be improved. Focus on what needs to be improved rather than what is already properly implemented. Also go into more detail, give me code snippets of how to enhance the code giving me code suggestions too. Give the response in Markdown"

/-- The fixed chat system instruction constant CHAT_PROMPT_INSTRUCTIONS from
request.go (a constant, independent of the diff). -/
def CHAT_PROMPT_INSTRUCTIONS : String := "You are a very intelligentX and professional senior engineer with over 10 years of experience. You have a deep understanding of software engineering principles and best practices. You are also proficient in a variety of programming languages and technologies. You are passionate about writing high-quality code and ensuring that our code is well-reviewed. You review only the added changed code in the while code review. You are also committed to continuous learning and improvement. When reviewing code, You  typically look for the following: Correctness: Does the code work as intended? Readability: Is the code easy to read and understand? Maintainability: Is the code easy to maintain and extend? Performance: Is the code efficient and performant? Security: Is the code secure and free from vulnerabilities? You provide code reviewers  with specific feedback and suggestions for improvement the cod You will take in a git diff, and review it for the user. You will provide user with detailed code review feedback, including the following: File name under 'File Name' section, Line number under 'Line Number' section, Comment under 'Comment' section, Sugegested Refactored code snippet for code that needs refactoring under 'Suggested Change' section. Please also try to provide the user with specific suggestions for improvement, such as: How to make the code more readable, How to improve the performance of the code, How to make the code more secure, How to improve the overall design of the code. The user appreciates your feedback and the user will use it to improve their code."

/-- The endpoint base constant API_BASE_URL from request.go. -/
def API_BASE_URL : String := "https://api.openai.com/v1/"

/-- A JSON tree, the image of encoding/json on the request structs. -/
inductive Json where
  | str : String → Json
  | num : ℚ → Json
  | int : Int → Json
  | arr : List Json → Json
  | obj : List (String × Json) → Json
deriving Repr

/-- The keys of a top-level JSON object, in emission order. -/
def Json.topKeys : Json → List String
  | .obj fields => fields.map (fun p => p.1)
  | _ => []

/-- Key lookup in a JSON object as encoding/json performs it when decoding
into a struct: later duplicates of a key overwrite earlier ones, hence the
reversed scan. -/
def Json.objLookup (j : Json) (k : String) : Option Json :=
  match j with
  | .obj fields => (fields.reverse.find? (fun p => p.1 == k)).map (fun p => p.2)
  | _ => none

/-- json.Marshal of Message: the tagged fields role, content in declaration
order. -/
def Message.marshal (m : Message) : Json :=
  .obj [("role", .str m.Role), ("content", .str m.Content)]

/-- json.Marshal of Body: the eight tagged fields in declaration order. -/
def Body.marshal (b : Body) : Json :=
  .obj [("model", .str b.Model), ("prompt", .str b.Prompt),
        ("temperature", .num b.Temperature), ("max_tokens", .int b.Max_Tokens),
        ("top_p", .num b.Top_P), ("frequency_penalty", .num b.Frequence_Pen),
        ("presence_penalty", .num b.Presence_Pen), ("best_of", .int b.Best_Of)]

/-- json.Marshal of ChatBody: the seven tagged fields in declaration order
(no prompt, no best_of). -/
def ChatBody.marshal (b : ChatBody) : Json :=
  .obj [("model", .str b.Model),
        ("messages", .arr (b.Messages.map Message.marshal)),
        ("temperature", .num b.Temperature), ("max_tokens", .int b.Max_Tokens),
        ("top_p", .num b.Top_P), ("frequency_penalty", .num b.Frequence_Pen),
        ("presence_penalty", .num b.Presence_Pen)]

/-- json.Unmarshal of a JSON value into Message: an absent or mistyped key
leaves the Go zero value (the error Unmarshal would additionally report on a
mistyped key is not modelled; the round-trip inputs below are well-typed). -/
def Message.unmarshal (j : Json) : Message :=
  { Role := match j.objLookup "role" with | some (.str s) => s | _ => ""
    Content := match j.objLookup "content" with | some (.str s) => s | _ => "" }

/-- json.Unmarshal of a JSON value into ChatBody, same conventions as
Message.unmarshal. -/
def ChatBody.unmarshal (j : Json) : ChatBody :=
  { Model := match j.objLookup "model" with | some (.str s) => s | _ => ""
    Messages := match j.objLookup "messages" with
      | some (.arr xs) => xs.map Message.unmarshal
      | _ => []
    Temperature := match j.objLookup "temperature" with | some (.num q) => q | _ => 0
    Max_Tokens := match j.objLookup "max_tokens" with | some (.int n) => n | _ => 0
    Top_P := match j.objLookup "top_p" with | some (.num q) => q | _ => 0
    Frequence_Pen := match j.objLookup "frequency_penalty" with | some (.num q) => q | _ => 0
    Presence_Pen := match j.objLookup "presence_penalty" with | some (.num q) => q | _ => 0 }

/-- configureParams from request.go: the Body and ChatBody assembled from the
scalar inputs.  The Go composite literals omit Prompt and Messages, so these
fields carry their zero values here. -/
def configureParams (model : Model) (maxtokens : Int)
    (temperature top_p frequence presence : ℚ) (bestof : Int) : Body × ChatBody :=
  let params : Body :=
    { Model := model.Name, Prompt := "", Temperature := temperature,
      Max_Tokens := maxtokens, Top_P := top_p, Frequence_Pen := frequence,
      Presence_Pen := presence, Best_Of := bestof }
  let chatParams : ChatBody :=
    { Model := model.Name, Messages := [], Temperature := temperature,
      Max_Tokens := maxtokens, Top_P := top_p, Frequence_Pen := frequence,
      Presence_Pen := presence }
  (params, chatParams)

/-- The request object createRequestBody marshals: a tagged union over the two
API families. -/
inductive RequestStruct where
  | legacy : Body → RequestStruct
  | chat : ChatBody → RequestStruct
deriving DecidableEq, Repr

/-- The struct-assembly half of createRequestBody from request.go: the chat
branch installs the two messages, the legacy branch installs the prompt
string built by fmt.Sprintf of PROMPT_PREFIX, a newline, the diff and a
newline. -/
def buildRequestStruct (model : Model) (params : Body) (chatParams : ChatBody)
    (gitDiff : String) : RequestStruct :=
  let prompt := PROMPT_PREFIX ++ "\n" ++ gitDiff ++ "\n"
  if model.Chat then
    let sysMessage : Message := { Role := "system", Content := CHAT_PROMPT_INSTRUCTIONS }
    let usrMessage : Message := { Role := "user", Content := gitDiff }
    .chat { chatParams with Messages := [sysMessage, usrMessage] }
  else
    .legacy { params with Prompt := prompt }

/-- Marshalling of the tagged union, dispatching exactly as the two
json.Marshal calls in createRequestBody do. -/
def RequestStruct.marshal : RequestStruct → Json
  | .legacy b => b.marshal
  | .chat b => b.marshal

/-- createRequestBody from request.go.  json.Marshal cannot fail on these
value types, so the Go error return is never populated and is dropped here. -/
def createRequestBody (model : Model) (params : Body) (chatParams : ChatBody)
    (gitDiff : String) : Json :=
  (buildRequestStruct model params chatParams gitDiff).marshal

/-- The upstream error payload ApiErr from request.go.  The Go field named
Type (json tag "type") is called ErrorType here because Type is reserved in
Lean. -/
structure ApiErr where
  Message : String
  ErrorType : String
  Param : Option String
  Code : String
deriving DecidableEq, Repr

/-- One response choice, APIText from request.go. -/
structure APIText where
  Text : String
  Message : Message
  Index : Int
deriving DecidableEq, Repr

/-- Token usage, APIUsage from request.go. -/
structure APIUsage where
  Prompt_Tokens : Int
  Completion_Tokens : Int
  Total_Tokens : Int
deriving DecidableEq, Repr

/-- The decoded response APIResponse from request.go. -/
structure APIResponse where
  Err : Option ApiErr
  ID : String
  Object : String
  Created : Int
  Choices : List APIText
  Usage : APIUsage
deriving DecidableEq, Repr

/-- What the response body unmarshals to: either json.Unmarshal fails with a
message, or it yields an APIResponse. -/
inductive DecodedBody where
  | malformed : String → DecodedBody
  | valid : APIResponse → DecodedBody
deriving DecidableEq, Repr

/-- The stubbed transport: client.Do either errors or hands back a body,
abstracted as that body's decode outcome. -/
inductive TransportResult where
  | failed : String → TransportResult
  | ok : DecodedBody → TransportResult
deriving DecidableEq, Repr

/-- The error values RequestImprovements can return. -/
inductive ReqError where
  | format : FormatError → ReqError
  | transport : String → ReqError
  | upstream : String → ReqError
deriving DecidableEq, Repr

/-- How a call to RequestImprovements ends: a Go (answers, err) return, or the
panic raised by globals.Log.Panic() when the response body fails to
unmarshal. -/
inductive RIOutcome where
  | returns : List String → Option ReqError → RIOutcome
  | panics : String → RIOutcome
deriving DecidableEq, Repr

/-- Which effectful steps the call reached: building the request body, and the
HTTP round trip. -/
structure Effects where
  builtBody : Bool
  network : Bool
deriving DecidableEq, Repr

/-- The answer-collection loop at the end of RequestImprovements: chat models
append choice.Message.Content unconditionally, legacy models append
choice.Text only when it is nonempty; `answers` is the accumulator the Go
loop appends to. -/
def collectAnswers (chat : Bool) (choices : List APIText)
    (answers : List String) : List String :=
  match choices with
  | [] => answers
  | c :: rest =>
    if chat then collectAnswers chat rest (answers ++ [c.Message.Content])
    else if c.Text.length ≠ 0 then collectAnswers chat rest (answers ++ [c.Text])
    else collectAnswers chat rest answers

/-- RequestImprovements from request.go over the stubbed transport.  The key
only feeds the Authorization header, which the stub absorbs.
http.NewRequest is applied to the constant method POST and a well-formed
constant URL, so its error branch is unreachable and not modelled. -/
def RequestImprovements (_key : String) (gitDiff : String) (rawModel : String)
    (maxtokens : Int) (temperature top_p frequence presence : ℚ) (bestof : Int)
    (transport : TransportResult) : RIOutcome × Effects :=
  let model := (lookupModel rawModel).getD zeroModel
  let hasModel := (lookupModel rawModel).isSome
  let pc := configureParams model maxtokens temperature top_p frequence presence bestof
  match CheckFormat pc.1 hasModel with
  | some e => (.returns [] (some (.format e)), { builtBody := false, network := false })
  | none =>
    let _reqBody := createRequestBody model pc.1 pc.2 gitDiff
    match transport with
    | .failed msg => (.returns [] (some (.transport msg)), { builtBody := true, network := true })
    | .ok (.malformed msg) => (.panics msg, { builtBody := true, network := true })
    | .ok (.valid apiReq) =>
      match apiReq.Err with
      | some apiErr =>
        (.returns [] (some (.upstream apiErr.Message)), { builtBody := true, network := true })
      | none =>
        (.returns (collectAnswers model.Chat apiReq.Choices []) none,
         { builtBody := true, network := true })

/-- The parameter validator as section 4.2 of the spec words it: ordered
short-circuit checks, modelFound first, each numeric range inclusive, first
failure wins.  Written from the spec's words to be compared with CheckFormat. -/
def specValidate (body : Body) (modelFound : Bool) : Option FormatError :=
  if modelFound = true then
    if TempRangeMin ≤ body.Temperature ∧ body.Temperature ≤ TempRangeMax then
      if TopPMin ≤ body.Top_P ∧ body.Top_P ≤ TopPMax then
        if PresenceMin ≤ body.Presence_Pen ∧ body.Presence_Pen ≤ PresenceMax then
          if FrequenceMin ≤ body.Frequence_Pen ∧ body.Frequence_Pen ≤ FrequenceMax then
            if BestOfMin ≤ body.Best_Of ∧ body.Best_Of ≤ BestOfMax then none
            else some .ErrWrongBestOfRange
          else some .ErrWrongFrequenceRange
        else some .ErrWrongPresenceRange
      else some .ErrWrongToppRange
    else some .ErrWrongTempRange
  else some .ErrWrongModel

/-- The ChatBody exactly as the chat branch of createRequestBody assembles it:
the two ordered messages installed into the caller-built chatParams. -/
def builtChatBody (chatParams : ChatBody) (gitDiff : String) : ChatBody :=
  { chatParams with
    Messages := [{ Role := "system", Content := CHAT_PROMPT_INSTRUCTIONS },
                 { Role := "user", Content := gitDiff }] }

/-- An in-range legacy Body used by concrete witnesses. -/
def sampleBody : Body :=
  { Model := "text-davinci-003", Prompt := "", Temperature := 0, Max_Tokens := 100,
    Top_P := 0, Frequence_Pen := 0, Presence_Pen := 0, Best_Of := 1 }

/-- An in-range ChatBody used by concrete witnesses. -/
def sampleChatBody : ChatBody :=
  { Model := "gpt-3.5-turbo", Messages := [], Temperature := 0, Max_Tokens := 100,
    Top_P := 0, Frequence_Pen := 0, Presence_Pen := 0 }

/-- A Body whose temperature lies outside [0, 1], used by a concrete witness. -/
def badTempBody : Body :=
  { Model := "text-davinci-003", Prompt := "", Temperature := 2, Max_Tokens := 100,
    Top_P := 0, Frequence_Pen := 0, Presence_Pen := 0, Best_Of := 1 }

/-- A legacy response whose choice texts are "", "improve X", "". -/
def legacyChoicesResp : APIResponse :=
  { Err := none, ID := "", Object := "", Created := 0,
    Choices :=
      [{ Text := "", Message := { Role := "", Content := "" }, Index := 0 },
       { Text := "improve X", Message := { Role := "", Content := "" }, Index := 1 },
       { Text := "", Message := { Role := "", Content := "" }, Index := 2 }],
    Usage := { Prompt_Tokens := 0, Completion_Tokens := 0, Total_Tokens := 0 } }

/-- A chat response with one choice whose message content is "looks fine". -/
def chatChoiceResp : APIResponse :=
  { Err := none, ID := "", Object := "", Created := 0,
    Choices :=
      [{ Text := "", Message := { Role := "assistant", Content := "looks fine" }, Index := 0 }],
    Usage := { Prompt_Tokens := 0, Completion_Tokens := 0, Total_Tokens := 0 } }

/-- A response whose error field is populated while choices are also present. -/
def upstreamErrResp : APIResponse :=
  { Err := some { Message := "invalid api key", ErrorType := "invalid_request_error",
                  Param := none, Code := "" },
    ID := "", Object := "", Created := 0,
    Choices :=
      [{ Text := "ignored", Message := { Role := "assistant", Content := "ignored" }, Index := 0 }],
    Usage := { Prompt_Tokens := 0, Completion_Tokens := 0, Total_Tokens := 0 } }

/-
  Theorems.
-/

/-- A strict out-of-range test over rationals is the negation of inclusive
interval membership. -/
theorem rat_out_of_range_iff (x lo hi : ℚ) : (x < lo ∨ x > hi) ↔ ¬(lo ≤ x ∧ x ≤ hi) := by
  rw [not_and_or, not_le, not_le]

/-- A strict out-of-range test over integers is the negation of inclusive
interval membership. -/
theorem int_out_of_range_iff (x lo hi : Int) : (x < lo ∨ x > hi) ↔ ¬(lo ≤ x ∧ x ≤ hi) := by
  rw [not_and_or, not_le, not_le]

/-- C1: CheckFormat performs its checks in exactly the order model found,
temperature, topP, presencePenalty, frequencyPenalty, bestOf and returns the
first-listed failing check's error (it coincides with the spec-ordered
short-circuit validator on every input), and for an unknown model it returns
ErrWrongModel regardless of all other parameter values. -/
theorem checkFormat_order_first_failure_wins (body : Body) (modelFound : Bool) :
    CheckFormat body modelFound = specValidate body modelFound ∧
    CheckFormat body false = some FormatError.ErrWrongModel := by
  refine ⟨?_, rfl⟩
  unfold CheckFormat specValidate
  cases modelFound with
  | false => rfl
  | true =>
    simp only [Bool.not_true, rat_out_of_range_iff, int_out_of_range_iff, ite_not]
    rfl

/-- C2: with the model found, CheckFormat succeeds exactly when temperature
and topP lie in [0, 1], presencePenalty and frequencyPenalty lie in [-2, 2]
and bestOf lies in [1, 20]; and whenever a parameter is out of range while
all earlier checks pass, the corresponding specific error is returned. -/
theorem checkFormat_range_characterization (body : Body) :
    (CheckFormat body true = none ↔
      ((TempRangeMin ≤ body.Temperature ∧ body.Temperature ≤ TempRangeMax) ∧
       (TopPMin ≤ body.Top_P ∧ body.Top_P ≤ TopPMax) ∧
       (PresenceMin ≤ body.Presence_Pen ∧ body.Presence_Pen ≤ PresenceMax) ∧
       (FrequenceMin ≤ body.Frequence_Pen ∧ body.Frequence_Pen ≤ FrequenceMax) ∧
       (BestOfMin ≤ body.Best_Of ∧ body.Best_Of ≤ BestOfMax))) ∧
    (¬(TempRangeMin ≤ body.Temperature ∧ body.Temperature ≤ TempRangeMax) →
      CheckFormat body true = some FormatError.ErrWrongTempRange) ∧
    ((TempRangeMin ≤ body.Temperature ∧ body.Temperature ≤ TempRangeMax) →
     ¬(TopPMin ≤ body.Top_P ∧ body.Top_P ≤ TopPMax) →
      CheckFormat body true = some FormatError.ErrWrongToppRange) ∧
    ((TempRangeMin ≤ body.Temperature ∧ body.Temperature ≤ TempRangeMax) →
     (TopPMin ≤ body.Top_P ∧ body.Top_P ≤ TopPMax) →
     ¬(PresenceMin ≤ body.Presence_Pen ∧ body.Presence_Pen ≤ PresenceMax) →
      CheckFormat body true = some FormatError.ErrWrongPresenceRange) ∧
    ((TempRangeMin ≤ body.Temperature ∧ body.Temperature ≤ TempRangeMax) →
     (TopPMin ≤ body.Top_P ∧ body.Top_P ≤ TopPMax) →
     (PresenceMin ≤ body.Presence_Pen ∧ body.Presence_Pen ≤ PresenceMax) →
     ¬(FrequenceMin ≤ body.Frequence_Pen ∧ body.Frequence_Pen ≤ FrequenceMax) →
      CheckFormat body true = some FormatError.ErrWrongFrequenceRange) ∧
    ((TempRangeMin ≤ body.Temperature ∧ body.Temperature ≤ TempRangeMax) →
     (TopPMin ≤ body.Top_P ∧ body.Top_P ≤ TopPMax) →
     (PresenceMin ≤ body.Presence_Pen ∧ body.Presence_Pen ≤ PresenceMax) →
     (FrequenceMin ≤ body.Frequence_Pen ∧ body.Frequence_Pen ≤ FrequenceMax) →
     ¬(BestOfMin ≤ body.Best_Of ∧ body.Best_Of ≤ BestOfMax) →
      CheckFormat body true = some FormatError.ErrWrongBestOfRange) := by
  by_cases h1 : TempRangeMin ≤ body.Temperature ∧ body.Temperature ≤ TempRangeMax <;>
  by_cases h2 : TopPMin ≤ body.Top_P ∧ body.Top_P ≤ TopPMax <;>
  by_cases h3 : PresenceMin ≤ body.Presence_Pen ∧ body.Presence_Pen ≤ PresenceMax <;>
  by_cases h4 : FrequenceMin ≤ body.Frequence_Pen ∧ body.Frequence_Pen ≤ FrequenceMax <;>
  by_cases h5 : BestOfMin ≤ body.Best_Of ∧ body.Best_Of ≤ BestOfMax <;>
  simp [CheckFormat, rat_out_of_range_iff, int_out_of_range_iff, h1, h2, h3, h4, h5]

/-- Witness for C2: badTempBody has its temperature out of range and
CheckFormat flags exactly that. -/
theorem checkFormat_range_characterization_witness :
    ¬(TempRangeMin ≤ badTempBody.Temperature ∧ badTempBody.Temperature ≤ TempRangeMax) ∧
    CheckFormat badTempBody true = some FormatError.ErrWrongTempRange :=
  ⟨by decide, (checkFormat_range_characterization badTempBody).2.1 (by decide)⟩

/-- The chat loop appends every choice's message content in order. -/
theorem collectAnswers_chat_map (choices : List APIText) (acc : List String) :
    collectAnswers true choices acc = acc ++ choices.map (fun c => c.Message.Content) := by
  induction choices generalizing acc with
  | nil => simp [collectAnswers]
  | cons c rest ih => simp [collectAnswers, ih]

/-- The legacy loop appends exactly the nonempty choice texts in order. -/
theorem collectAnswers_legacy_filter (choices : List APIText) (acc : List String) :
    collectAnswers false choices acc
      = acc ++ (choices.filter (fun c => c.Text.length != 0)).map (fun c => c.Text) := by
  induction choices generalizing acc with
  | nil => simp [collectAnswers]
  | cons c rest ih =>
    by_cases h : c.Text.length = 0 <;>
      simp [collectAnswers, ih, h, List.filter_cons]

/-- C3: with no error in the response, the comment list is built in choice
order; a chat model takes each message content unconditionally, a legacy
model takes each text only when nonempty.  Concretely, legacy choice texts
"", "improve X", "" yield exactly the list with "improve X", and one chat
choice saying "looks fine" yields exactly that singleton. -/
theorem choices_to_comments :
    (∀ choices : List APIText,
      collectAnswers true choices [] = choices.map (fun c => c.Message.Content)) ∧
    (∀ choices : List APIText,
      collectAnswers false choices []
        = (choices.filter (fun c => c.Text.length != 0)).map (fun c => c.Text)) ∧
    (RequestImprovements "key" "diff" "davinci" 100 0 0 0 0 1
        (.ok (.valid legacyChoicesResp))).1 = .returns ["improve X"] none ∧
    (RequestImprovements "key" "diff" "turbo" 100 0 0 0 0 1
        (.ok (.valid chatChoiceResp))).1 = .returns ["looks fine"] none := by
  refine ⟨fun choices => ?_, fun choices => ?_, rfl, rfl⟩
  · simpa using collectAnswers_chat_map choices []
  · simpa using collectAnswers_legacy_filter choices []

/-- C4: when the decoded response carries an error payload, the call returns
the embedded message as its error and an empty comment list, whatever the
choices hold. -/
theorem upstream_error_fails_call (key gitDiff rawModel : String) (maxtokens : Int)
    (temperature top_p frequence presence : ℚ) (bestof : Int)
    (resp : APIResponse) (e : ApiErr)
    (hfmt : CheckFormat (configureParams ((lookupModel rawModel).getD zeroModel) maxtokens
        temperature top_p frequence presence bestof).1 (lookupModel rawModel).isSome = none)
    (herr : resp.Err = some e) :
    (RequestImprovements key gitDiff rawModel maxtokens temperature top_p frequence presence
        bestof (.ok (.valid resp))).1 = .returns [] (some (.upstream e.Message)) := by
  simp only [RequestImprovements]
  rw [hfmt, herr]

/-- Witness for C4: a response carrying error message "invalid api key" next
to a nonempty choice list fails with exactly that message and no comments. -/
theorem upstream_error_fails_call_witness :
    (RequestImprovements "key" "diff" "davinci" 100 0 0 0 0 1
        (.ok (.valid upstreamErrResp))).1 = .returns [] (some (.upstream "invalid api key")) :=
  upstream_error_fails_call "key" "diff" "davinci" 100 0 0 0 0 1 upstreamErrResp
    { Message := "invalid api key", ErrorType := "invalid_request_error",
      Param := none, Code := "" }
    (by decide) rfl

/-- C5 counterexample: at a concrete call whose response body fails to
unmarshal, RequestImprovements ends in the panic raised by
globals.Log.Panic(); the outcome is the panics constructor, not a returns
constructor, so no DecodeError value reaches the caller. -/
theorem decode_failure_not_returned :
    (RequestImprovements "key" "diff" "davinci" 100 0 0 0 0 1
        (.ok (.malformed "unexpected end of JSON input"))).1
      = .panics "unexpected end of JSON input" := rfl

/-- C5 (amended): when the response body cannot be deserialized, the call
aborts with a logged panic carrying the decode error message — fatal and not
silently swallowed, distinct from a transport error, but not an error value
returned to the caller. -/
theorem decode_failure_panics (key gitDiff rawModel : String) (maxtokens : Int)
    (temperature top_p frequence presence : ℚ) (bestof : Int) (msg : String)
    (hfmt : CheckFormat (configureParams ((lookupModel rawModel).getD zeroModel) maxtokens
        temperature top_p frequence presence bestof).1 (lookupModel rawModel).isSome = none) :
    (RequestImprovements key gitDiff rawModel maxtokens temperature top_p frequence presence
        bestof (.ok (.malformed msg))).1 = .panics msg := by
  simp only [RequestImprovements]
  rw [hfmt]

/-- Witness for the amended C5 at a concrete malformed body. -/
theorem decode_failure_panics_witness :
    (RequestImprovements "key" "diff" "turbo" 100 0 0 0 0 1
        (.ok (.malformed "invalid character"))).1 = .panics "invalid character" :=
  decode_failure_panics "key" "diff" "turbo" 100 0 0 0 0 1 "invalid character" (by decide)

/-- C6: for a legacy model the built request is the legacy Body whose prompt
is the fixed instruction text followed by a newline, the diff verbatim and a
trailing newline (fmt.Sprintf of the two with the format string of
createRequestBody), and the serialized body carries exactly that string under
the prompt key. -/
theorem legacy_prompt_concatenation (model : Model) (params : Body) (chatParams : ChatBody)
    (gitDiff : String) (h : model.Chat = false) :
    buildRequestStruct model params chatParams gitDiff
      = .legacy { params with Prompt := PROMPT_PREFIX ++ "\n" ++ gitDiff ++ "\n" } ∧
    (createRequestBody model params chatParams gitDiff).objLookup "prompt"
      = some (.str (PROMPT_PREFIX ++ "\n" ++ gitDiff ++ "\n")) := by
  constructor
  · unfold buildRequestStruct
    rw [h]
    rfl
  · unfold createRequestBody buildRequestStruct
    rw [h]
    rfl

/-- Witness for C6 with the davinci descriptor and a concrete diff. -/
theorem legacy_prompt_concatenation_witness :
    buildRequestStruct Davinci sampleBody sampleChatBody "diff text"
      = .legacy { sampleBody with Prompt := PROMPT_PREFIX ++ "\n" ++ "diff text" ++ "\n" } ∧
    (createRequestBody Davinci sampleBody sampleChatBody "diff text").objLookup "prompt"
      = some (.str (PROMPT_PREFIX ++ "\n" ++ "diff text" ++ "\n")) :=
  legacy_prompt_concatenation Davinci sampleBody sampleChatBody "diff text" rfl

/-- Decoding an encoded message recovers it. -/
theorem message_roundtrip (m : Message) : Message.unmarshal (Message.marshal m) = m := rfl

/-- Decoding an encoded message list recovers it elementwise. -/
theorem message_list_roundtrip (l : List Message) :
    (l.map Message.marshal).map Message.unmarshal = l := by
  induction l with
  | nil => rfl
  | cons m rest ih => simp [ih, message_roundtrip m]

/-- Serializing a ChatBody and deserializing it back preserves the message
list, order included. -/
theorem chatBody_messages_roundtrip (cb : ChatBody) :
    (ChatBody.unmarshal cb.marshal).Messages = cb.Messages := by
  show (cb.Messages.map Message.marshal).map Message.unmarshal = cb.Messages
  exact message_list_roundtrip cb.Messages

/-- C7: for a chat model the built ChatRequest holds exactly two messages in
order — the system message with the fixed instruction constant first, then
the user message with the raw diff — and serializing then deserializing the
ChatRequest preserves that message order. -/
theorem chat_request_two_messages (model : Model) (params : Body) (chatParams : ChatBody)
    (gitDiff : String) (h : model.Chat = true) :
    buildRequestStruct model params chatParams gitDiff
      = .chat (builtChatBody chatParams gitDiff) ∧
    (builtChatBody chatParams gitDiff).Messages
      = [{ Role := "system", Content := CHAT_PROMPT_INSTRUCTIONS },
         { Role := "user", Content := gitDiff }] ∧
    (ChatBody.unmarshal (builtChatBody chatParams gitDiff).marshal).Messages
      = (builtChatBody chatParams gitDiff).Messages := by
  refine ⟨?_, rfl, chatBody_messages_roundtrip _⟩
  unfold buildRequestStruct builtChatBody
  rw [h]
  rfl

/-- Witness for C7 with the gpt4 descriptor and a concrete diff. -/
theorem chat_request_two_messages_witness :
    buildRequestStruct GPT4 sampleBody sampleChatBody "diff text"
      = .chat (builtChatBody sampleChatBody "diff text") ∧
    (builtChatBody sampleChatBody "diff text").Messages
      = [{ Role := "system", Content := CHAT_PROMPT_INSTRUCTIONS },
         { Role := "user", Content := "diff text" }] ∧
    (ChatBody.unmarshal (builtChatBody sampleChatBody "diff text").marshal).Messages
      = (builtChatBody sampleChatBody "diff text").Messages :=
  chat_request_two_messages GPT4 sampleBody sampleChatBody "diff text" rfl

/-- C8: RequestImprovements never returns comments next to an error — every
error return carries the empty comment list — and every validation failure is
returned with no request body built and no network round trip, whatever the
transport would have answered. -/
theorem no_partial_success_and_early_validation (key gitDiff rawModel : String)
    (maxtokens : Int) (temperature top_p frequence presence : ℚ) (bestof : Int)
    (transport : TransportResult) :
    (∀ ans e, (RequestImprovements key gitDiff rawModel maxtokens temperature top_p frequence
        presence bestof transport).1 = .returns ans (some e) → ans = []) ∧
    (∀ e, CheckFormat (configureParams ((lookupModel rawModel).getD zeroModel) maxtokens
          temperature top_p frequence presence bestof).1 (lookupModel rawModel).isSome = some e →
      RequestImprovements key gitDiff rawModel maxtokens temperature top_p frequence presence
          bestof transport
        = (.returns [] (some (.format e)), { builtBody := false, network := false })) := by
  constructor
  · intro ans e h
    simp only [RequestImprovements] at h
    cases hcf : CheckFormat (configureParams ((lookupModel rawModel).getD zeroModel) maxtokens
        temperature top_p frequence presence bestof).1 (lookupModel rawModel).isSome <;>
      rw [hcf] at h
    · cases transport with
      | failed msg => simp_all
      | ok db =>
        cases db with
        | malformed msg => simp_all
        | valid resp =>
          cases hre : resp.Err <;> simp_all
    · simp_all
  · intro e hcf
    simp only [RequestImprovements]
    rw [hcf]

/-- Witness for C8: an unknown alias is rejected as ErrWrongModel with no body
built and no network use, even with a transport that would have failed. -/
theorem no_partial_success_and_early_validation_witness :
    RequestImprovements "key" "diff" "unknown" 100 0 0 0 0 1 (.failed "connection refused")
      = (.returns [] (some (.format .ErrWrongModel)),
         { builtBody := false, network := false }) :=
  (no_partial_success_and_early_validation "key" "diff" "unknown" 100 0 0 0 0 1
    (.failed "connection refused")).2 .ErrWrongModel (by decide)

/-- C9: the serialized chat request carries exactly the keys model, messages,
temperature, max_tokens, top_p, frequency_penalty, presence_penalty — no
prompt key and no best_of key; each serialized message carries exactly role
and content; and the ChatBody configureParams assembles does not depend on
the caller's bestOf at all. -/
theorem chat_serialization_drops_bestof (model : Model) (params : Body)
    (chatParams : ChatBody) (gitDiff : String) (maxtokens : Int)
    (temperature top_p frequence presence : ℚ) (bestof bestof' : Int)
    (h : model.Chat = true) :
    (createRequestBody model params chatParams gitDiff).topKeys
      = ["model", "messages", "temperature", "max_tokens", "top_p",
         "frequency_penalty", "presence_penalty"] ∧
    "prompt" ∉ (createRequestBody model params chatParams gitDiff).topKeys ∧
    "best_of" ∉ (createRequestBody model params chatParams gitDiff).topKeys ∧
    (∀ m : Message, (Message.marshal m).topKeys = ["role", "content"]) ∧
    (configureParams model maxtokens temperature top_p frequence presence bestof).2
      = (configureParams model maxtokens temperature top_p frequence presence bestof').2 := by
  have hk : (createRequestBody model params chatParams gitDiff).topKeys
      = ["model", "messages", "temperature", "max_tokens", "top_p",
         "frequency_penalty", "presence_penalty"] := by
    unfold createRequestBody buildRequestStruct
    rw [h]
    rfl
  refine ⟨hk, ?_, ?_, fun m => rfl, rfl⟩
  · rw [hk]; decide
  · rw [hk]; decide

/-- Witness for C9 at the turbo descriptor. -/
theorem chat_serialization_drops_bestof_witness :
    (createRequestBody Turbo sampleBody sampleChatBody "diff text").topKeys
      = ["model", "messages", "temperature", "max_tokens", "top_p",
         "frequency_penalty", "presence_penalty"] ∧
    "prompt" ∉ (createRequestBody Turbo sampleBody sampleChatBody "diff text").topKeys ∧
    "best_of" ∉ (createRequestBody Turbo sampleBody sampleChatBody "diff text").topKeys ∧
    (∀ m : Message, (Message.marshal m).topKeys = ["role", "content"]) ∧
    (configureParams Turbo 100 0 0 0 0 1).2 = (configureParams Turbo 100 0 0 0 0 21).2 :=
  chat_serialization_drops_bestof Turbo sampleBody sampleChatBody "diff text"
    100 0 0 0 0 1 21 rfl

/-- C10: even for a chat model, whose serialization never carries best_of, an
out-of-range bestOf with all earlier checks passing fails the call with the
best-of range error, before any request body is built and before any network
round trip. -/
theorem chat_bestof_still_validated (key gitDiff rawModel : String) (maxtokens : Int)
    (temperature top_p frequence presence : ℚ) (bestof : Int) (transport : TransportResult)
    (m : Model) (hm : lookupModel rawModel = some m) (_hchat : m.Chat = true)
    (ht : TempRangeMin ≤ temperature ∧ temperature ≤ TempRangeMax)
    (htp : TopPMin ≤ top_p ∧ top_p ≤ TopPMax)
    (hpr : PresenceMin ≤ presence ∧ presence ≤ PresenceMax)
    (hf : FrequenceMin ≤ frequence ∧ frequence ≤ FrequenceMax)
    (hb : bestof < BestOfMin ∨ bestof > BestOfMax) :
    RequestImprovements key gitDiff rawModel maxtokens temperature top_p frequence presence
        bestof transport
      = (.returns [] (some (.format .ErrWrongBestOfRange)),
         { builtBody := false, network := false }) := by
  have hcf : CheckFormat (configureParams ((lookupModel rawModel).getD zeroModel) maxtokens
      temperature top_p frequence presence bestof).1 (lookupModel rawModel).isSome
      = some .ErrWrongBestOfRange := by
    rw [hm]
    simp [CheckFormat, configureParams, rat_out_of_range_iff, int_out_of_range_iff,
      ht, htp, hpr, hf, hb]
  simp only [RequestImprovements]
  rw [hcf]

/-- Witness for C10: turbo (a chat model) with bestOf 21 and everything else
in range is rejected with the best-of range error before any request body or
network use. -/
theorem chat_bestof_still_validated_witness :
    RequestImprovements "key" "diff" "turbo" 100 0 0 0 0 21 (.failed "connection refused")
      = (.returns [] (some (.format .ErrWrongBestOfRange)),
         { builtBody := false, network := false }) :=
  chat_bestof_still_validated "key" "diff" "turbo" 100 0 0 0 0 21
    (.failed "connection refused") Turbo (by decide) rfl
    (by decide) (by decide) (by decide) (by decide) (by decide)

end ReviewGpt
